import Mathlib

/-!
Shallow embedding of the motion-control core of the "horse" trainer:

* `src/modbus_manager.py` — the 32-bit register split/compose of
  `ModbusManager.write_32bit_value` / `read_32bit_value`;
* `src/servo_device.py` — `A5ServoDevice.read_status` (signed decoding and
  per-field partial updates), `enable` (virtual-DI read-modify-write),
  `get_fault_description` (fault table with fallback format);
* `src/motion_controller.py` — `MotionPattern.calculate_positions`, the
  preset patterns, and the `MotionController` state machine operations
  `start_motion`, `stop_motion`, `emergency_stop`.

Python floats are modelled over `ℝ` with `int()` as truncation toward zero;
Python arbitrary-precision ints over `Int`, whose Euclidean `%` and `/`
coincide with Python's `&`-mask and `>>` on the positive moduli used here.
Transport reads that can fail are modelled as `Option`; device command
outcomes in the emergency path include a raised-exception case because the
source wraps those calls in `try`/`except`.
-/

namespace Horse

/-- `ModbusManager.write_32bit_value` (modbus_manager.py): splits `value` into
`low_word = value & 0xFFFF` and `high_word = (value >> 16) & 0xFFFF` and
writes `[low_word, high_word]` at the address via one function-16 write.
The result is the pair of register words written. -/
def write_32bit_words (value : Int) : List Nat :=
  [(value % 65536).toNat, ((value / 65536) % 65536).toNat]

/-- `ModbusManager.read_32bit_value` (modbus_manager.py): given the outcome of
`read_registers(address, 2)` (where `none` models a failed read), yields
`(registers[1] << 16) | registers[0]` — the unsigned composite — and `none`
when fewer than two registers were returned. -/
def read_32bit_value (registers : Option (List Nat)) : Option Nat :=
  match registers with
  | none => none
  | some (low :: high :: _) => some ((high <<< 16) ||| low)
  | some _ => none

/-- The signed reinterpretation of the 32-bit composite performed by
`A5ServoDevice.read_status` (servo_device.py):
`if pos > 0x7FFFFFFF: pos = pos - 0x100000000`. -/
def toSigned32 (pos : Nat) : Int :=
  if pos > 0x7FFFFFFF then (pos : Int) - 0x100000000 else (pos : Int)

/-- The signed reinterpretation of a 16-bit register word performed by
`A5ServoDevice.read_status`: `if val > 32767: val = val - 65536`. -/
def toSigned16 (val : Nat) : Int :=
  if val > 32767 then (val : Int) - 65536 else (val : Int)

/-- Mirror of the `ServoStatus` dataclass (servo_device.py).  `dc_voltage`,
`is_enabled` and `is_running` are carried along but never assigned by
`read_status` in the source. -/
structure ServoStatus where
  position : Int := 0
  speed : Int := 0
  torque : Int := 0
  dc_voltage : Int := 0
  fault_code : Nat := 0
  di_status : Nat := 0
  do_status : Nat := 0
  is_enabled : Bool := false
  is_running : Bool := false
deriving DecidableEq, Repr

/-- The outcomes of the six independent transport sub-reads of one
`read_status` cycle; `none` models a `read_registers`/`read_32bit_value`
failure, `some` carries the raw register word(s): `pos` the unsigned 32-bit
composite, the rest single 16-bit words. -/
structure ReadCycle where
  pos : Option Nat := none
  speed : Option Nat := none
  torque : Option Nat := none
  fault : Option Nat := none
  di : Option Nat := none
  do_reg : Option Nat := none
deriving DecidableEq, Repr

/-- `A5ServoDevice.read_status` (servo_device.py): returns `False` when not
connected; otherwise each sub-read updates its status field only when the
read succeeded (a failed sub-read keeps the previous value), and the call
returns `True`. -/
def read_status (connected : Bool) (cycle : ReadCycle) (st : ServoStatus) :
    ServoStatus × Bool :=
  if connected then
    let st1 := match cycle.pos with
      | some p => { st with position := toSigned32 p }
      | none => st
    let st2 := match cycle.speed with
      | some s => { st1 with speed := toSigned16 s }
      | none => st1
    let st3 := match cycle.torque with
      | some t => { st2 with torque := toSigned16 t }
      | none => st2
    let st4 := match cycle.fault with
      | some f => { st3 with fault_code := f }
      | none => st3
    let st5 := match cycle.di with
      | some d => { st4 with di_status := d }
      | none => st4
    let st6 := match cycle.do_reg with
      | some d => { st5 with do_status := d }
      | none => st5
    (st6, true)
  else (st, false)

/-- The new register word computed by `A5ServoDevice.enable` (servo_device.py)
from the current virtual-DI word: `current | 0x0001` to set the SON bit,
`current & ~0x0001` to clear it; for a non-negative Python int the latter is
exactly dropping bit 0, i.e. `2 * (current / 2)`. -/
def enable_value (state : Bool) (current : Nat) : Nat :=
  if state then current ||| 1 else 2 * (current / 2)

/-- `A5ServoDevice.enable`: read the virtual-DI register (`none` models a
failed read, which makes the call fail), modify bit 0, write the word back.
The result is the word written to the register. -/
def enable (state : Bool) (readDI : Option Nat) : Option Nat :=
  match readDI with
  | none => none
  | some current => some (enable_value state current)

/-- The fault table inside `A5ServoDevice.get_fault_description`
(servo_device.py), verbatim. -/
def fault_codes : List (Nat × String) :=
  [(0, "Нет ошибок"),
   (1, "Er.01 - Перегрузка по току"),
   (2, "Er.02 - Превышение напряжения"),
   (3, "Er.03 - Низкое напряжение"),
   (4, "Er.04 - Ошибка энкодера"),
   (5, "Er.05 - Перегрев"),
   (6, "Er.06 - Ошибка регенерации"),
   (7, "Er.07 - Перегрузка"),
   (8, "Er.08 - Ошибка позиции"),
   (9, "Er.09 - Ошибка скорости"),
   (10, "Er.10 - Ошибка EEPROM")]

/-- Python `f"{n:02d}"` for a non-negative int: zero-pad to two digits. -/
def fmt02 (n : Nat) : String :=
  if n < 10 then "0" ++ toString n else toString n

/-- `A5ServoDevice.get_fault_description`: look the current fault code up in
the fixed table, falling back to `f"Er.{code:02d} - Неизвестная ошибка"`. -/
def get_fault_description (fault_code : Nat) : String :=
  match List.lookup fault_code fault_codes with
  | some d => d
  | none => "Er." ++ fmt02 fault_code ++ " - Неизвестная ошибка"

/-- Mirror of the `MotionPattern` dataclass (motion_controller.py). -/
structure MotionPattern where
  name : String
  cycle_time_ms : Int
  front_amplitude : Int
  rear_amplitude : Int
  phase_shift : Int
  front_offset : Int := 0
  rear_offset : Int := 0
deriving DecidableEq, Repr

/-- Python `int(x)` applied to a float: truncation toward zero. -/
noncomputable def rtrunc (x : ℝ) : Int :=
  if 0 ≤ x then ⌊x⌋ else ⌈x⌉

/-- `math.radians(d)`: degrees to radians. -/
noncomputable def radians (degrees : Int) : ℝ :=
  (degrees : ℝ) * Real.pi / 180

/-- `MotionPattern.calculate_positions` (motion_controller.py):
`front_angle = 2π·phase`, `rear_angle = 2π·phase + radians(phase_shift)`,
each position `int(offset + amplitude * sin(angle))`. -/
noncomputable def calculate_positions (p : MotionPattern) (phase : ℝ) :
    Int × Int :=
  (rtrunc ((p.front_offset : ℝ) +
      (p.front_amplitude : ℝ) * Real.sin (2 * Real.pi * phase)),
   rtrunc ((p.rear_offset : ℝ) +
      (p.rear_amplitude : ℝ) *
        Real.sin (2 * Real.pi * phase + radians p.phase_shift)))

/-- The Walk preset of `PRESET_PATTERNS` (motion_controller.py). -/
def walk_pattern : MotionPattern :=
  { name := "Шаг", cycle_time_ms := 2000, front_amplitude := 3000,
    rear_amplitude := 3000, phase_shift := 180 }

/-- The Gallop preset of `PRESET_PATTERNS` (motion_controller.py). -/
def gallop_pattern : MotionPattern :=
  { name := "Галоп", cycle_time_ms := 600, front_amplitude := 5000,
    rear_amplitude := 5000, phase_shift := 90 }

/-- `MotionMode` (motion_controller.py). -/
inductive MotionMode
  | STOPPED
  | MANUAL
  | WALK
  | GALLOP
  | CUSTOM
deriving DecidableEq, Repr

/-- `PRESET_PATTERNS.get(mode)` (motion_controller.py). -/
def PRESET_PATTERNS (mode : MotionMode) : Option MotionPattern :=
  match mode with
  | .WALK => some walk_pattern
  | .GALLOP => some gallop_pattern
  | _ => none

/-- The `MotionController` fields that its operations read or write:
`current_mode`, `current_pattern`, the `_stop_event` flag, and whether
`_motion_thread` holds a (started) thread. -/
structure CtrlState where
  current_mode : MotionMode
  current_pattern : Option MotionPattern
  stop_event : Bool
  motion_thread : Bool
deriving DecidableEq, Repr

/-- The push notifications the controller can fire toward the UI. -/
inductive Notif
  | modeChange (mode : MotionMode)
  | positionUpdate (front rear : Int)
  | error (msg : String)
deriving DecidableEq, Repr

/-- Which actuator a device command targets. -/
inductive Which
  | front
  | rear
deriving DecidableEq, Repr

/-- Register-level commands the controller issues to the servo devices. -/
inductive DevCmd
  | setSpeed (which : Which) (value : Int)
  | setEnable (which : Which) (state : Bool)
deriving DecidableEq, Repr

/-- Connectivity of the two actuators as seen through `is_connected`. -/
structure ConnEnv where
  front_connected : Bool
  rear_connected : Bool
deriving DecidableEq, Repr

/-- Whether a notification list contains an error notification. -/
def hasError (l : List Notif) : Bool :=
  l.any fun n =>
    match n with
    | .error _ => true
    | _ => false

/-- `MotionController.stop_motion` (motion_controller.py): set the stop event,
join the thread with a bounded wait, drop the thread handle, reset mode to
STOPPED and pattern to `None`, command zero speed on each connected actuator
(`set_target_speed` returns a bool and never raises), fire the mode-change
notification.  Result: new state, notifications fired, commands issued. -/
def stop_motion (env : ConnEnv) (_s : CtrlState) :
    CtrlState × List Notif × List DevCmd :=
  ({ current_mode := .STOPPED, current_pattern := none,
     stop_event := true, motion_thread := false },
   [.modeChange .STOPPED],
   (if env.front_connected then [DevCmd.setSpeed .front 0] else []) ++
     (if env.rear_connected then [DevCmd.setSpeed .rear 0] else []))

/-- `MotionController.start_motion` (motion_controller.py): unconditionally
`stop_motion` first; STOPPED returns there; MANUAL transitions with no loop;
CUSTOM requires a caller pattern and on `None` only logs an error and
returns (no error notification is fired); WALK/GALLOP take their preset.
A pattern-bearing mode stores the pattern, clears the stop event, starts the
loop thread and fires the mode-change notification. -/
def start_motion (env : ConnEnv) (s : CtrlState) (mode : MotionMode)
    (pattern : Option MotionPattern) :
    CtrlState × List Notif × List DevCmd :=
  let r := stop_motion env s
  let s1 := r.1
  let n1 := r.2.1
  let c1 := r.2.2
  if mode = .STOPPED then (s1, n1, c1)
  else if mode = .MANUAL then
    ({ s1 with current_mode := mode }, n1 ++ [.modeChange mode], c1)
  else
    let pat : Option MotionPattern :=
      if mode = .CUSTOM then pattern else PRESET_PATTERNS mode
    match pat with
    | none => (s1, n1, c1)
    | some p =>
        ({ current_mode := mode, current_pattern := some p,
           stop_event := false, motion_thread := true },
         n1 ++ [.modeChange mode], c1)

/-- Outcome of one device command in the emergency path: returned `True`,
returned `False`, or raised an exception. -/
inductive CmdRes
  | ok
  | fail
  | exn
deriving DecidableEq, Repr

/-- Connectivity plus the outcome of each command `emergency_stop` may
attempt: zero-speed and disable per actuator. -/
structure EmergencyEnv where
  front_connected : Bool
  rear_connected : Bool
  front_speed : CmdRes
  front_enable : CmdRes
  rear_speed : CmdRes
  rear_enable : CmdRes
deriving DecidableEq, Repr

/-- One `try:` block of `emergency_stop`: when the actuator is connected,
`set_target_speed(0)` is attempted; its bool result is ignored, so
`enable(False)` is attempted next unless the speed command raised.  Returns
the commands attempted and whether an exception was raised in the block. -/
def stop_block (connected : Bool) (speedRes enableRes : CmdRes) (w : Which) :
    List DevCmd × Bool :=
  if connected then
    match speedRes with
    | .exn => ([.setSpeed w 0], true)
    | _ =>
        match enableRes with
        | .exn => ([.setSpeed w 0, .setEnable w false], true)
        | _ => ([.setSpeed w 0, .setEnable w false], false)
  else ([], false)

/-- The `except: pass` around each block: any raised exception is swallowed. -/
def swallow (r : List DevCmd × Bool) : List DevCmd × Bool :=
  (r.1, false)

/-- `MotionController.emergency_stop` (motion_controller.py): set the stop
event without joining the thread, run the front then the rear stop block,
each wrapped in `try`/`except: pass`, force mode STOPPED, fire the
mode-change notification.  Result: new state, notifications, commands
attempted, and whether an exception escaped to the caller. -/
def emergency_stop (env : EmergencyEnv) (s : CtrlState) :
    CtrlState × List Notif × List DevCmd × Bool :=
  let fb := swallow
    (stop_block env.front_connected env.front_speed env.front_enable .front)
  let rb := swallow
    (stop_block env.rear_connected env.rear_speed env.rear_enable .rear)
  ({ s with stop_event := true, current_mode := .STOPPED },
   [.modeChange .STOPPED],
   fb.1 ++ rb.1,
   fb.2 || rb.2)

/-! ## Helper lemmas -/

/-- Composing a high word shifted left 16 with a low word below `2 ^ 16` by
bitwise or is plain positional addition. -/
theorem shiftLeft_lor_eq_add (h l : Nat) (hl : l < 2 ^ 16) :
    (h <<< 16) ||| l = h * 2 ^ 16 + l := by
  apply Nat.eq_of_testBit_eq
  intro i
  rw [Nat.testBit_lor, Nat.testBit_shiftLeft]
  rcases Nat.lt_or_ge i 16 with hi | hi
  · have hnot : ¬ (i ≥ 16) := by omega
    simp only [ge_iff_le, hnot, decide_False, Bool.false_and, Bool.false_or]
    rw [Nat.testBit_to_div_mod, Nat.testBit_to_div_mod]
    have hsplit : h * 2 ^ 16 = 2 ^ i * (2 ^ (16 - i - 1) * h * 2) := by
      rw [show (2 : Nat) ^ 16 = 2 ^ i * (2 ^ (16 - i - 1) * 2) by
        rw [← pow_succ, ← pow_add]; congr 1; omega]
      ring
    rw [hsplit, Nat.add_comm,
      Nat.add_mul_div_left _ _ (Nat.pos_pow_of_pos i (by norm_num))]
    congr 1
    rw [Nat.add_mul_mod_self_right]
  · have hge : i ≥ 16 := hi
    simp only [ge_iff_le, hge, decide_True, Bool.true_and]
    have hlz : l.testBit i = false := by
      apply Nat.testBit_eq_false_of_lt
      calc l < 2 ^ 16 := hl
        _ ≤ 2 ^ i := Nat.pow_le_pow_right (by norm_num) hi
    rw [hlz, Bool.or_false]
    rw [Nat.testBit_to_div_mod, Nat.testBit_to_div_mod]
    have hdiv : (h * 2 ^ 16 + l) / 2 ^ i = h / 2 ^ (i - 16) := by
      rw [show (2 : Nat) ^ i = 2 ^ 16 * 2 ^ (i - 16) by
        rw [← pow_add]; congr 1; omega]
      rw [← Nat.div_div_eq_div_mul]
      congr 1
      rw [Nat.add_comm, Nat.add_mul_div_right _ _
        (by norm_num : (0 : Nat) < 2 ^ 16)]
      rw [Nat.div_eq_of_lt hl]
      omega
    rw [hdiv]

/-! ## C1 — write32 / read32 round trip -/

/-- C1 (counterexample): the claim says `write32` then `read32` yields exactly
the signed value `v`, but `ModbusManager.read_32bit_value` returns the raw
unsigned composite without the signed reinterpretation, so at `v = -1` the
round trip yields `4294967295`, not `-1`. -/
theorem write32_read32_raw_cex :
    read_32bit_value (some (write_32bit_words (-1))) = some 4294967295 ∧
    (4294967295 : Int) ≠ (-1 : Int) := by
  constructor
  · decide
  · decide

/-- C1 (amended): for every signed 32-bit `v`, `write_32bit_value` followed by
`read_32bit_value` over a transport that stores the written words unchanged
yields the unsigned composite, and applying the Device's signed
reinterpretation (`read_status`'s two's-complement step) to it recovers
exactly `v`. -/
theorem write32_read32_signed_roundtrip (v : Int)
    (hlo : -2147483648 ≤ v) (hhi : v < 2147483648) :
    (read_32bit_value (some (write_32bit_words v))).map toSigned32 = some v := by
  have hl0 : (0 : Int) ≤ v % 65536 := Int.emod_nonneg v (by norm_num)
  have hl1 : v % 65536 < 65536 := Int.emod_lt_of_pos v (by norm_num)
  have hh0 : (0 : Int) ≤ (v / 65536) % 65536 := Int.emod_nonneg _ (by norm_num)
  have hh1 : (v / 65536) % 65536 < 65536 := Int.emod_lt_of_pos _ (by norm_num)
  have hlnat : (v % 65536).toNat < 2 ^ 16 := by omega
  simp only [write_32bit_words, read_32bit_value, Option.map]
  rw [shiftLeft_lor_eq_add _ _ hlnat]
  simp only [toSigned32]
  split_ifs with hbig
  · congr 1
    push_cast
    omega
  · congr 1
    push_cast
    omega

/-- C1 (witness): the amended round trip at the concrete value `v = -5`. -/
theorem write32_read32_signed_roundtrip_witness :
    -2147483648 ≤ (-5 : Int) ∧ (-5 : Int) < 2147483648 ∧
    (read_32bit_value (some (write_32bit_words (-5)))).map toSigned32 =
      some (-5) := by
  refine ⟨by norm_num, by norm_num, ?_⟩
  exact write32_read32_signed_roundtrip (-5) (by norm_num) (by norm_num)

/-! ## C2 — emergency stop always reaches STOPPED -/

/-- C2: for every starting state and every outcome (success, failure, raised
exception) of the per-actuator zero-speed and disable commands,
`emergency_stop` ends with `current_mode = STOPPED`, the stop attempt on the
rear actuator is made whenever the rear actuator is connected — regardless
of what happened on the front actuator — and no exception and no error
notification is propagated to the caller. -/
theorem emergency_stop_always_stopped (env : EmergencyEnv) (s : CtrlState)
    (hr : env.rear_connected = true) :
    (emergency_stop env s).1.current_mode = .STOPPED ∧
    DevCmd.setSpeed .rear 0 ∈ (emergency_stop env s).2.2.1 ∧
    (emergency_stop env s).2.2.2 = false ∧
    hasError (emergency_stop env s).2.1 = false := by
  refine ⟨rfl, ?_, rfl, rfl⟩
  simp only [emergency_stop, swallow, hr, stop_block]
  rcases env.rear_speed with _ | _ | _ <;>
    rcases env.rear_enable with _ | _ | _ <;>
    simp [stop_block]

/-- C2 (witness): a front actuator whose zero-speed command raises does not
prevent the rear stop attempt, and the mode still ends STOPPED. -/
theorem emergency_stop_always_stopped_witness :
    (EmergencyEnv.mk true true .exn .ok .ok .ok).rear_connected = true ∧
    ((emergency_stop (EmergencyEnv.mk true true .exn .ok .ok .ok)
        (CtrlState.mk .WALK (some walk_pattern) false true)).1.current_mode
      = .STOPPED ∧
    DevCmd.setSpeed .rear 0 ∈
      (emergency_stop (EmergencyEnv.mk true true .exn .ok .ok .ok)
        (CtrlState.mk .WALK (some walk_pattern) false true)).2.2.1 ∧
    (emergency_stop (EmergencyEnv.mk true true .exn .ok .ok .ok)
        (CtrlState.mk .WALK (some walk_pattern) false true)).2.2.2 = false ∧
    hasError (emergency_stop (EmergencyEnv.mk true true .exn .ok .ok .ok)
        (CtrlState.mk .WALK (some walk_pattern) false true)).2.1 = false) :=
  ⟨rfl, emergency_stop_always_stopped (EmergencyEnv.mk true true .exn .ok .ok .ok)
    (CtrlState.mk .WALK (some walk_pattern) false true) rfl⟩

/-! ## C3 — start_motion(CUSTOM) without a pattern -/

/-- C3 (counterexample): starting from WALK, `start_motion(CUSTOM, None)` does
not leave the mode unchanged — the unconditional `stop_motion` that precedes
the mode dispatch has already reset it to STOPPED — and no error
notification is fired (the failure is only logged). -/
theorem start_custom_none_mode_cex :
    (start_motion (ConnEnv.mk true true)
        (CtrlState.mk .WALK (some walk_pattern) false true)
        .CUSTOM none).1.current_mode ≠
      (CtrlState.mk .WALK (some walk_pattern) false true).current_mode ∧
    hasError (start_motion (ConnEnv.mk true true)
        (CtrlState.mk .WALK (some walk_pattern) false true)
        .CUSTOM none).2.1 = false := by
  constructor
  · decide
  · decide

/-- C3 (amended): `start_motion(CUSTOM, None)` starts no background loop and
sets no pattern, but because it first unconditionally runs `stop_motion`,
the mode afterwards is STOPPED — equal to the prior mode only when that was
already STOPPED — and the failure is reported only in the log: the sole
notification fired is the mode change to STOPPED from the stop path. -/
theorem start_custom_none_resets_to_stopped (env : ConnEnv) (s : CtrlState) :
    (start_motion env s .CUSTOM none).1.current_mode = .STOPPED ∧
    (start_motion env s .CUSTOM none).1.motion_thread = false ∧
    (start_motion env s .CUSTOM none).1.current_pattern = none ∧
    (start_motion env s .CUSTOM none).2.1 = [.modeChange .STOPPED] := by
  refine ⟨rfl, rfl, rfl, rfl⟩

/-! ## C6 — stop_motion is idempotent and safe when nothing runs -/

/-- C6: calling `stop_motion` twice in a row from any state — including one
where no sampling loop is running — raises no error on either call (no error
notification, no exception: it is a total function returning normally),
leaves `current_mode = STOPPED` after each call, and the second call
produces the same state as the first. -/
theorem stop_motion_idempotent_no_error (env : ConnEnv) (s : CtrlState) :
    (stop_motion env s).1.current_mode = .STOPPED ∧
    (stop_motion env (stop_motion env s).1).1.current_mode = .STOPPED ∧
    (stop_motion env (stop_motion env s).1).1 = (stop_motion env s).1 ∧
    hasError (stop_motion env s).2.1 = false ∧
    hasError (stop_motion env (stop_motion env s).1).2.1 = false := by
  refine ⟨rfl, rfl, rfl, rfl, rfl⟩

/-! ## C10 — frame effect of emergency_stop versus stop_motion -/

/-- C10 (counterexample): `emergency_stop` changes a state field other than
the mode — it sets the stop-event flag, which was clear while the WALK
session was running. -/
theorem emergency_stop_frame_cex :
    (emergency_stop (EmergencyEnv.mk true true .ok .ok .ok .ok)
        (CtrlState.mk .WALK (some walk_pattern) false true)).1.stop_event ≠
      (CtrlState.mk .WALK (some walk_pattern) false true).stop_event := by
  decide

/-- C10 (amended): `emergency_stop` retains the current pattern and the thread
handle, forces the mode to STOPPED and sets the stop signal, changing
nothing else; `stop_motion`, by contrast, always resets the current pattern
to none. -/
theorem emergency_stop_frame (env : EmergencyEnv) (s : CtrlState) :
    (emergency_stop env s).1.current_pattern = s.current_pattern ∧
    (emergency_stop env s).1.motion_thread = s.motion_thread ∧
    (emergency_stop env s).1.current_mode = .STOPPED ∧
    (emergency_stop env s).1.stop_event = true ∧
    ∀ env2 s2, (stop_motion env2 s2).1.current_pattern = none := by
  exact ⟨rfl, rfl, rfl, rfl, fun _ _ => rfl⟩

/-! ## C4 — read_status partial-read degradation -/

/-- C4: on a connected device, `read_status` updates exactly the status fields
whose sub-read succeeded — each field whose sub-read failed keeps its
previous value — and still returns success; it returns failure exactly when
the device is not connected, in which case the status is untouched. -/
theorem read_status_partial (connected : Bool) (cycle : ReadCycle)
    (st : ServoStatus) :
    (read_status connected cycle st).2 = connected ∧
    (connected = false → (read_status connected cycle st).1 = st) ∧
    (cycle.pos = none →
      (read_status connected cycle st).1.position = st.position) ∧
    (cycle.speed = none →
      (read_status connected cycle st).1.speed = st.speed) ∧
    (cycle.torque = none →
      (read_status connected cycle st).1.torque = st.torque) ∧
    (cycle.fault = none →
      (read_status connected cycle st).1.fault_code = st.fault_code) ∧
    (cycle.di = none →
      (read_status connected cycle st).1.di_status = st.di_status) ∧
    (cycle.do_reg = none →
      (read_status connected cycle st).1.do_status = st.do_status) ∧
    (connected = true →
      (∀ p, cycle.pos = some p →
        (read_status connected cycle st).1.position = toSigned32 p) ∧
      (∀ v, cycle.speed = some v →
        (read_status connected cycle st).1.speed = toSigned16 v) ∧
      (∀ v, cycle.torque = some v →
        (read_status connected cycle st).1.torque = toSigned16 v) ∧
      (∀ v, cycle.fault = some v →
        (read_status connected cycle st).1.fault_code = v) ∧
      (∀ v, cycle.di = some v →
        (read_status connected cycle st).1.di_status = v) ∧
      (∀ v, cycle.do_reg = some v →
        (read_status connected cycle st).1.do_status = v)) ∧
    (read_status connected cycle st).1.dc_voltage = st.dc_voltage ∧
    (read_status connected cycle st).1.is_enabled = st.is_enabled ∧
    (read_status connected cycle st).1.is_running = st.is_running := by
  obtain ⟨pos, speed, torque, fault, di, do_reg⟩ := cycle
  cases connected <;>
    rcases pos with _ | p <;>
    rcases speed with _ | sp <;>
    rcases torque with _ | tq <;>
    rcases fault with _ | fc <;>
    rcases di with _ | din <;>
    rcases do_reg with _ | dout <;>
    simp [read_status]

/-- C4 (witness): the spec scenario — connected, only the fault-code sub-read
fails — keeps the previously-known fault code, updates the position from the
successful sub-read, and the call reports success. -/
theorem read_status_partial_witness :
    (read_status true
        (ReadCycle.mk (some 100) (some 5) (some 7) none (some 3) (some 1))
        (ServoStatus.mk 42 1 2 0 9 0 0 false false)).2 = true ∧
    (read_status true
        (ReadCycle.mk (some 100) (some 5) (some 7) none (some 3) (some 1))
        (ServoStatus.mk 42 1 2 0 9 0 0 false false)).1.fault_code = 9 ∧
    (read_status true
        (ReadCycle.mk (some 100) (some 5) (some 7) none (some 3) (some 1))
        (ServoStatus.mk 42 1 2 0 9 0 0 false false)).1.position =
      toSigned32 100 := by
  have h := read_status_partial true
    (ReadCycle.mk (some 100) (some 5) (some 7) none (some 3) (some 1))
    (ServoStatus.mk 42 1 2 0 9 0 0 false false)
  exact ⟨h.1, h.2.2.2.2.2.1 rfl, (h.2.2.2.2.2.2.2.2.1 rfl).1 100 rfl⟩

/-! ## C5 — enable(true) then enable(false) only touches bit 0 -/

/-- C5: for every initial virtual-DI word, `enable(true)` followed by
`enable(false)` (both reads and writes succeeding, the transport returning
the word just written) leaves every bit other than bit 0 equal to its value
before the first call — after each of the two calls — while bit 0 is set by
the first write and cleared by the second. -/
theorem enable_pair_preserves_other_bits (reg i : Nat) (hi : i ≠ 0) :
    (enable true (some reg)).bind (fun r => enable false (some r)) =
      some (enable_value false (enable_value true reg)) ∧
    (enable_value true reg).testBit i = reg.testBit i ∧
    (enable_value false (enable_value true reg)).testBit i = reg.testBit i ∧
    (enable_value true reg).testBit 0 = true ∧
    (enable_value false (enable_value true reg)).testBit 0 = false := by
  obtain ⟨j, rfl⟩ : ∃ j, i = j + 1 := ⟨i - 1, by omega⟩
  have hone : Nat.testBit 1 (j + 1) = false := by
    rw [Nat.testBit_succ]
    simp
  have hlor : ∀ m : Nat, (m ||| 1).testBit (j + 1) = m.testBit (j + 1) := by
    intro m
    rw [Nat.testBit_lor, hone, Bool.or_false]
  have hdrop : ∀ m : Nat, (2 * (m / 2)).testBit (j + 1) = m.testBit (j + 1) := by
    intro m
    rw [Nat.testBit_succ, Nat.mul_div_cancel_left _ (by norm_num : (0 : Nat) < 2),
      ← Nat.testBit_succ]
  have o1 : enable_value true reg = reg ||| 1 := rfl
  have o2 : enable_value false (enable_value true reg) =
      2 * ((reg ||| 1) / 2) := rfl
  refine ⟨rfl, ?_, ?_, ?_, ?_⟩
  · rw [o1, hlor]
  · rw [o2, hdrop, hlor]
  · rw [o1, Nat.testBit_lor]
    simp
  · rw [o2, Nat.testBit_to_div_mod]
    simp [Nat.mul_mod_right]

/-- C5 (witness): the pair of calls at the concrete word `0xABCD` preserves
bit 3. -/
theorem enable_pair_preserves_other_bits_witness :
    (3 : Nat) ≠ 0 ∧
    (enable_value false (enable_value true 0xABCD)).testBit 3 =
      (0xABCD : Nat).testBit 3 :=
  ⟨by decide, (enable_pair_preserves_other_bits 0xABCD 3 (by decide)).2.2.1⟩

/-! ## C9 — fault description table and fallback -/

/-- C9: `get_fault_description` returns the entry of the fixed fault table for
every code 0 through 10, and for every other code returns the generic
unknown-fault message with the numeric code embedded in it. -/
theorem fault_description_table_and_fallback (code : Nat) :
    (code ≤ 10 →
      List.lookup code fault_codes = some (get_fault_description code)) ∧
    (10 < code →
      get_fault_description code =
        "Er." ++ toString code ++ " - Неизвестная ошибка") := by
  constructor
  · intro h
    interval_cases code <;> rfl
  · intro h
    have h0 : (code == 0) = false := by simp; omega
    have h1 : (code == 1) = false := by simp; omega
    have h2 : (code == 2) = false := by simp; omega
    have h3 : (code == 3) = false := by simp; omega
    have h4 : (code == 4) = false := by simp; omega
    have h5 : (code == 5) = false := by simp; omega
    have h6 : (code == 6) = false := by simp; omega
    have h7 : (code == 7) = false := by simp; omega
    have h8 : (code == 8) = false := by simp; omega
    have h9 : (code == 9) = false := by simp; omega
    have h10 : (code == 10) = false := by simp; omega
    have hnone : List.lookup code fault_codes = none := by
      simp only [fault_codes, List.lookup, h0, h1, h2, h3, h4, h5, h6, h7,
        h8, h9, h10]
    rw [get_fault_description, hnone]
    rw [fmt02, if_neg (by omega)]

/-- C9 (witness): the table entry at code 3 and the fallback at code 42. -/
theorem fault_description_table_and_fallback_witness :
    List.lookup 3 fault_codes = some (get_fault_description 3) ∧
    get_fault_description 42 =
      "Er." ++ toString 42 ++ " - Неизвестная ошибка" :=
  ⟨(fault_description_table_and_fallback 3).1 (by norm_num),
   (fault_description_table_and_fallback 42).2 (by norm_num)⟩

/-! ## Real-arithmetic helpers for calculate_positions -/

/-- Truncation toward zero negates cleanly: `int(-x) = -int(x)`. -/
theorem rtrunc_neg (x : ℝ) : rtrunc (-x) = -(rtrunc x) := by
  unfold rtrunc
  rcases lt_trichotomy x 0 with h | h | h
  · rw [if_pos (by linarith), if_neg (not_le.mpr h), Int.floor_neg]
  · subst h
    norm_num
  · rw [if_neg (by linarith), if_pos (le_of_lt h), Int.ceil_neg]

/-- `math.radians(180)` is π. -/
theorem rad180 : radians 180 = Real.pi := by
  unfold radians
  push_cast
  ring

/-- Advancing the phase by half a cycle modulo one flips the sign of the
walk's rear angle: the sine at `2π·fract(phase + 1/2) + π` equals the sine
at `2π·phase`. -/
theorem sin_fract_half (phase : ℝ) :
    Real.sin (2 * Real.pi * Int.fract (phase + 1 / 2) + Real.pi) =
      Real.sin (2 * Real.pi * phase) := by
  have e : 2 * Real.pi * Int.fract (phase + 1 / 2) + Real.pi
      = 2 * Real.pi * phase + Real.pi + Real.pi +
        ((-⌊phase + 1 / 2⌋ : Int) : ℝ) * (2 * Real.pi) := by
    rw [Int.fract]
    push_cast
    ring
  rw [e, Real.sin_add_int_mul_two_pi, Real.sin_add_pi, Real.sin_add_pi,
    neg_neg]

/-- The rear coordinate of the Walk preset as a single sine expression. -/
theorem walk_rear_eq (ψ : ℝ) :
    (calculate_positions walk_pattern ψ).2 =
      rtrunc (3000 * Real.sin (2 * Real.pi * ψ + Real.pi)) := by
  simp [calculate_positions, walk_pattern, rad180]

/-- The front coordinate of the Walk preset as a single sine expression. -/
theorem walk_front_eq (ψ : ℝ) :
    (calculate_positions walk_pattern ψ).1 =
      rtrunc (3000 * Real.sin (2 * Real.pi * ψ)) := by
  simp [calculate_positions, walk_pattern]

/-! ## C7 — Walk anti-phase law -/

/-- C7: for the built-in Walk pattern (180° phase shift, zero offsets), the
rear position at any phase in `[0,1)` is the negation of the rear position
at `(phase + 0.5) mod 1`, and the front position at phase 0.5 is the
negation of the front position at phase 0. -/
theorem walk_antiphase :
    (∀ phase : ℝ, 0 ≤ phase → phase < 1 →
      (calculate_positions walk_pattern phase).2 =
        -((calculate_positions walk_pattern (Int.fract (phase + 1 / 2))).2)) ∧
    (calculate_positions walk_pattern (1 / 2)).1 =
      -((calculate_positions walk_pattern 0).1) := by
  constructor
  · intro phase hlo hhi
    rw [walk_rear_eq, walk_rear_eq, Real.sin_add_pi, sin_fract_half,
      mul_neg, rtrunc_neg]
  · rw [walk_front_eq, walk_front_eq]
    rw [show 2 * Real.pi * (1 / 2 : ℝ) = Real.pi by ring, Real.sin_pi]
    rw [show 2 * Real.pi * (0 : ℝ) = 0 by ring, Real.sin_zero]
    norm_num [rtrunc]

/-- C7 (witness): the anti-phase law at the concrete phase 0. -/
theorem walk_antiphase_witness :
    (0 : ℝ) ≤ 0 ∧ (0 : ℝ) < 1 ∧
    (calculate_positions walk_pattern 0).2 =
      -((calculate_positions walk_pattern (Int.fract ((0 : ℝ) + 1 / 2))).2) :=
  ⟨le_refl 0, by norm_num, walk_antiphase.1 0 (le_refl 0) (by norm_num)⟩

/-! ## C8 — equal front/rear position at phase 0 with zero shift -/

/-- C8 (counterexample): the claim omits the center offsets — a pattern with
zero phase shift, equal amplitudes but different front/rear offsets has
different front and rear positions at phase 0. -/
theorem calc_positions_zero_shift_cex :
    (MotionPattern.mk "offset-test" 1000 5 5 0 0 1).phase_shift = 0 ∧
    (MotionPattern.mk "offset-test" 1000 5 5 0 0 1).front_amplitude =
      (MotionPattern.mk "offset-test" 1000 5 5 0 0 1).rear_amplitude ∧
    (calculate_positions (MotionPattern.mk "offset-test" 1000 5 5 0 0 1) 0).2 ≠
      (calculate_positions (MotionPattern.mk "offset-test" 1000 5 5 0 0 1)
        0).1 := by
  refine ⟨rfl, rfl, ?_⟩
  have hr :
      (calculate_positions (MotionPattern.mk "offset-test" 1000 5 5 0 0 1)
        0).2 = 1 := by
    simp [calculate_positions, radians, rtrunc]
  have hf :
      (calculate_positions (MotionPattern.mk "offset-test" 1000 5 5 0 0 1)
        0).1 = 0 := by
    simp [calculate_positions, rtrunc]
  rw [hr, hf]
  decide

/-- C8 (amended): for every pattern with zero phase shift, equal amplitudes
and equal center offsets, `calculate_positions(0)` returns equal rear and
front positions. -/
theorem calc_positions_equal_at_zero (p : MotionPattern)
    (hs : p.phase_shift = 0) (_ha : p.front_amplitude = p.rear_amplitude)
    (ho : p.front_offset = p.rear_offset) :
    (calculate_positions p 0).2 = (calculate_positions p 0).1 := by
  simp [calculate_positions, hs, ho, radians]

/-- C8 (witness): the amended equality at a concrete Walk-like pattern with
zero shift and matching offsets. -/
theorem calc_positions_equal_at_zero_witness :
    (MotionPattern.mk "w" 2000 3000 3000 0 0 0).phase_shift = 0 ∧
    (MotionPattern.mk "w" 2000 3000 3000 0 0 0).front_amplitude =
      (MotionPattern.mk "w" 2000 3000 3000 0 0 0).rear_amplitude ∧
    (MotionPattern.mk "w" 2000 3000 3000 0 0 0).front_offset =
      (MotionPattern.mk "w" 2000 3000 3000 0 0 0).rear_offset ∧
    (calculate_positions (MotionPattern.mk "w" 2000 3000 3000 0 0 0) 0).2 =
      (calculate_positions (MotionPattern.mk "w" 2000 3000 3000 0 0 0) 0).1 :=
  ⟨rfl, rfl, rfl,
    calc_positions_equal_at_zero (MotionPattern.mk "w" 2000 3000 3000 0 0 0)
      rfl rfl rfl⟩

end Horse
